import Mathlib

/-!
# Verification of the OpenXR host-binding pose/frame pipeline

This file gives a shallow embedding, in Lean 4, of the algorithmic core of
`semu/xr/openxr/openxr.py`: the coordinate-space pose conversion, the stereo
rectification quaternion composer, the frame flip/fit transform, the action
subscription registry and the poll/render dispatch loops, together with the
facade control flow for stub ("disabled") mode.

Modelling conventions:
* floating point numbers are modelled by `ℚ` where the claims speak about
  exact arithmetic identities, and by `ℝ` where trigonometric functions are
  involved (the rectification composer);
* `Gf.Vec3d` / `Gf.Quatd` of the external pxr library are modelled by the
  structures `Vec3d` / `Quat4` below, with the standard Hamilton quaternion
  product (the fixed contract of the collaborator library);
* Python exceptions are modelled by `Except String`, boolean returns by
  `Bool`;
* `cv2.resize` is an external collaborator: it is passed in as a function
  argument, and its fixed contract (the output has exactly the requested
  size) appears as a hypothesis where a claim needs it;
* the native runtime library (`xrlib`) is an external collaborator whose
  boolean results enter as function arguments.
-/

/-- A quaternion with components (w, x, y, z), w the real part; models
`pxr.Gf.Quatd` (constructed in the source as `Gf.Quatd(w, x, y, z)`). -/
structure Quat4 (α : Type) where
  w : α
  x : α
  y : α
  z : α
deriving DecidableEq

/-- Hamilton product of quaternions: the multiplication of `pxr.Gf.Quatd`
(fixed contract of the external pxr library). -/
def qmul {α : Type} [CommRing α] (a b : Quat4 α) : Quat4 α :=
  ⟨a.w * b.w - a.x * b.x - a.y * b.y - a.z * b.z,
   a.w * b.x + a.x * b.w + a.y * b.z - a.z * b.y,
   a.w * b.y - a.x * b.z + a.y * b.w + a.z * b.x,
   a.w * b.z + a.x * b.y - a.y * b.x + a.z * b.w⟩

/-- The identity quaternion `Gf.Quatd(1, 0, 0, 0)`. -/
def qone {α : Type} [CommRing α] : Quat4 α := ⟨1, 0, 0, 0⟩

/-- Models `pxr.Gf.Vec3d` (host-space double-precision vector) over `ℚ`. -/
structure Vec3d where
  x : ℚ
  y : ℚ
  z : ℚ
deriving DecidableEq

/-- Componentwise division `Gf.Vec3d(...) / m` (scalar division of the
external pxr vector type). -/
def vdiv (v : Vec3d) (m : ℚ) : Vec3d := ⟨v.x / m, v.y / m, v.z / m⟩

/-- `XrVector3f` (source lines 81-82): fields x, y, z. -/
structure XrVector3f where
  x : ℚ
  y : ℚ
  z : ℚ
deriving DecidableEq

/-- `XrQuaternionf` (source lines 78-79): fields x, y, z, w in that order. -/
structure XrQuaternionf where
  x : ℚ
  y : ℚ
  z : ℚ
  w : ℚ
deriving DecidableEq

/-- `XrPosef` (source lines 84-85): orientation then position. -/
structure XrPosef where
  orientation : XrQuaternionf
  position : XrVector3f
deriving DecidableEq

/-- Action type constants (source lines 51-55). -/
abbrev XR_ACTION_TYPE_BOOLEAN_INPUT : ℤ := 1
abbrev XR_ACTION_TYPE_FLOAT_INPUT : ℤ := 2
abbrev XR_ACTION_TYPE_VECTOR2F_INPUT : ℤ := 3
abbrev XR_ACTION_TYPE_POSE_INPUT : ℤ := 4
abbrev XR_ACTION_TYPE_VIBRATION_OUTPUT : ℤ := 100

/-- `ActionPoseState` (source lines 108-112): a pose-typed action record. -/
structure ActionPoseState where
  type : ℤ
  path : String
  isActive : Bool
  pose : XrPosef
deriving DecidableEq

/-- The pose-action dispatch loop of `OpenXR.render_views`
(source lines 526-531 for the ctypes transport; lines 537-542 are the
verbatim dynamic-record twin): for each record of pose type that is active,
the delivered value is
`(Gf.Vec3d(p.x, -p.z, p.y) / meters_per_unit, Gf.Quatd(q.w, q.x, q.y, q.z))`
and the registered pose callback is invoked with `(path, value)`.  The
function returns the list of `(path, value)` invocations in order. -/
def render_views_pose_dispatch (meters_per_unit : ℚ)
    (states : List ActionPoseState) : List (String × Vec3d × Quat4 ℚ) :=
  states.filterMap fun s =>
    if s.type = XR_ACTION_TYPE_POSE_INPUT ∧ s.isActive then
      some (s.path,
        vdiv ⟨s.pose.position.x, -s.pose.position.z, s.pose.position.y⟩ meters_per_unit,
        ⟨s.pose.orientation.w, s.pose.orientation.x, s.pose.orientation.y, s.pose.orientation.z⟩)
    else
      none

/-- The `_internal_render` callback (source lines 997-1011): the left camera
is teleported to
`(Gf.Vec3d(p.x, -p.z, p.y) / meters_per_unit,
  Gf.Quatd(q.w, q.x, q.y, q.z) * rectification_quat_left)`
from `views[0]`, and, when `num_views == 2`, the right camera likewise from
`views[1]` with `rectification_quat_right`.  The function returns the list
of `(position, rotation)` teleport targets in order (left first). -/
def internal_render (meters_per_unit : ℚ) (rect_left rect_right : Quat4 ℚ)
    (num_views : ℕ) (v0 v1 : XrPosef) : List (Vec3d × Quat4 ℚ) :=
  let t0 := (vdiv ⟨v0.position.x, -v0.position.z, v0.position.y⟩ meters_per_unit,
             qmul ⟨v0.orientation.w, v0.orientation.x, v0.orientation.y, v0.orientation.z⟩ rect_left)
  if num_views = 2 then
    [t0, (vdiv ⟨v1.position.x, -v1.position.z, v1.position.y⟩ meters_per_unit,
          qmul ⟨v1.orientation.w, v1.orientation.x, v1.orientation.y, v1.orientation.z⟩ rect_right)]
  else
    [t0]

/-- One axis step of `OpenXR.set_stereo_rectification` (source lines
842-850): when the angle `a` is non-zero (Python truthiness of a float),
multiply the running quaternion on the right by the axis rotation
quaternion `(cos(a/2), sin(a/2) · axisUnitVector)`; when the angle is zero
the step is skipped entirely.  `axis` is 0 (X), 1 (Y), otherwise Z. -/
noncomputable def rect_step (axis : ℕ) (a : ℝ) (q : Quat4 ℝ) : Quat4 ℝ :=
  if a ≠ 0 then
    qmul q (if axis = 0 then ⟨Real.cos (a / 2), Real.sin (a / 2), 0, 0⟩
            else if axis = 1 then ⟨Real.cos (a / 2), 0, Real.sin (a / 2), 0⟩
            else ⟨Real.cos (a / 2), 0, 0, Real.sin (a / 2)⟩)
  else q

/-- `OpenXR.set_stereo_rectification` (source lines 827-850): both
quaternions restart from `Gf.Quatd(1, 0, 0, 0)`, then the X, Y, Z steps are
applied in that fixed order; the left quaternion uses the angles as given
and the right quaternion the negated angles (the source writes
`cos(-a/2), sin(-a/2)`, which equals the step at angle `-a`; the source
gates both sides on the same angle `a`, and `-a ≠ 0 ↔ a ≠ 0`). -/
noncomputable def set_stereo_rectification (x y z : ℝ) : Quat4 ℝ × Quat4 ℝ :=
  (rect_step 2 z (rect_step 1 y (rect_step 0 x qone)),
   rect_step 2 (-z) (rect_step 1 (-y) (rect_step 0 (-x) qone)))

/-- Modelled from the spec: the hypothetical composer that applies the Y
step before the X step (and then Z), used only for the order-sensitivity
comparison of §8 ("x=π/2,y=π/2 must NOT equal y=π/2,x=π/2 result"); it is
not part of the source. -/
noncomputable def set_stereo_rectification_yx (x y z : ℝ) : Quat4 ℝ × Quat4 ℝ :=
  (rect_step 2 z (rect_step 0 x (rect_step 1 y qone)),
   rect_step 2 (-z) (rect_step 0 (-x) (rect_step 1 (-y) qone)))

/-- A frame buffer, modelled as its list of pixel rows (the pixel type is
irrelevant to the claims; `ℤ` stands for a packed pixel value). -/
abbrev Image := List (List ℤ)

/-- `frame.shape[0]` — the number of rows. -/
def rowsOf (img : Image) : ℕ := img.length

/-- `frame.shape[1]` — the number of columns. -/
def colsOf (img : Image) : ℕ := (img.headD []).length

/-- The `flip` configuration of `set_frame_transformations` (source lines
866-879): flip around axis 0, axis 1, or both. -/
inductive FlipAxes where
  | axis0 : FlipAxes
  | axis1 : FlipAxes
  | both : FlipAxes
deriving DecidableEq

/-- `np.flip(frame, axis=...)`: axis 0 reverses the rows, axis 1 reverses
inside each row, (0, 1) reverses both (fixed contract of numpy). -/
def flipImage : FlipAxes → Image → Image
  | FlipAxes.axis0, img => img.reverse
  | FlipAxes.axis1, img => img.map List.reverse
  | FlipAxes.both, img => img.reverse.map List.reverse

/-- The Python slice `l[m:-m]` for `m > 0` (also correct at `m = 0` only
when composed under the `if m` guard the source uses). -/
def sliceTrim {α : Type} (m : ℕ) (l : List α) : List α :=
  (l.drop m).take (l.length - 2 * m)

/-- `frame[m:-m, :]` — symmetric row crop. -/
def cropRows (m : ℕ) (img : Image) : Image := sliceTrim m img

/-- `frame[:, m:-m]` — symmetric column crop. -/
def cropCols (m : ℕ) (img : Image) : Image := img.map (sliceTrim m)

/-- The column margin `int(abs(recommended_ratio * frame.shape[0] -
frame.shape[1]) / 2)` (source line 1105); Python `int()` truncates, and the
argument is non-negative, so it is the floor. -/
def fitMarginCols (w h rw rh : ℕ) : ℕ :=
  (Int.floor ((|((rw : ℚ) / (rh : ℚ)) * (h : ℚ) - (w : ℚ)|) / 2)).toNat

/-- The row margin `int(abs(frame.shape[1] / recommended_ratio -
frame.shape[0]) / 2)` (source line 1108). -/
def fitMarginRows (w h rw rh : ℕ) : ℕ :=
  (Int.floor ((|(w : ℚ) / ((rw : ℚ) / (rh : ℚ)) - (h : ℚ)|) / 2)).toNat

/-- `OpenXR._transform` (source lines 1094-1110).  `resize` stands for the
external `cv2.resize` collaborator (resize target passed as width rw,
height rh).  The returned boolean is the source's `transformed` flag, which
decides `np.array(frame, copy=True) if transformed else frame`: `true`
means a fresh copy is returned, `false` means the original buffer object is
returned. -/
def _transform (resize : ℕ → ℕ → Image → Image) (flip : Option FlipAxes)
    (fit : Bool) (rw rh : ℕ) (frame : Image) : Image × Bool :=
  let fr := match flip with
    | some f => flipImage f frame
    | none => frame
  let transformed := match flip with
    | some _ => true
    | none => false
  if fit then
    (if (colsOf fr : ℚ) / (rowsOf fr : ℚ) > (rw : ℚ) / (rh : ℚ) then
       (fun m => resize rw rh (if m ≠ 0 then cropCols m fr else fr))
         (fitMarginCols (colsOf fr) (rowsOf fr) rw rh)
     else
       (fun m => resize rw rh (if m ≠ 0 then cropRows m fr else fr))
         (fitMarginRows (colsOf fr) (rowsOf fr) rw rh),
     true)
  else (fr, transformed)

/-- `ActionState` (source lines 99-106): a typed action-state record of the
fixed-size (ctypes) transport; the dynamic-record transport carries the
same fields as a dictionary. -/
structure ActionState where
  type : ℤ
  path : String
  isActive : Bool
  stateBool : Bool
  stateFloat : ℚ
  stateVectorX : ℚ
  stateVectorY : ℚ
deriving DecidableEq

/-- The value passed to an action callback by `poll_actions`: the Python
variable `value`, which starts as `None` and is set by the type dispatch
chain. -/
inductive ActionValue where
  | none : ActionValue
  | bool : Bool → ActionValue
  | float : ℚ → ActionValue
  | vec2 : ℚ → ℚ → ActionValue
deriving DecidableEq

/-- The `value` computed by the if/elif chain of `poll_actions` (source
lines 448-456 and 468-474): boolean and float are passed through, vector2
becomes the ordered pair (x, y); any other type leaves `value = None`. -/
def decodeActionValue (s : ActionState) : ActionValue :=
  if s.type = XR_ACTION_TYPE_BOOLEAN_INPUT then ActionValue.bool s.stateBool
  else if s.type = XR_ACTION_TYPE_FLOAT_INPUT then ActionValue.float s.stateFloat
  else if s.type = XR_ACTION_TYPE_VECTOR2F_INPUT then ActionValue.vec2 s.stateVectorX s.stateVectorY
  else ActionValue.none

/-- The dispatch loop of `poll_actions` on the fixed-size (ctypes)
transport (source lines 447-461): an unset (zero) type breaks the scan;
pose and vibration records are skipped (`continue`); every other record
invokes its callback with `(path, value)`.  Returns the `(path, value)`
invocations in order. -/
def poll_actions_dispatch_ctypes : List ActionState → List (String × ActionValue)
  | [] => []
  | s :: rest =>
    if s.type = 0 then []
    else if s.type = XR_ACTION_TYPE_POSE_INPUT ∨ s.type = XR_ACTION_TYPE_VIBRATION_OUTPUT then
      poll_actions_dispatch_ctypes rest
    else
      (s.path, decodeActionValue s) :: poll_actions_dispatch_ctypes rest

/-- The dispatch loop of `poll_actions` on the dynamic-record (pybind11)
transport (source lines 467-479): identical to the ctypes loop except that
there is no zero-type terminator check. -/
def poll_actions_dispatch_pybind : List ActionState → List (String × ActionValue)
  | [] => []
  | s :: rest =>
    if s.type = XR_ACTION_TYPE_POSE_INPUT ∨ s.type = XR_ACTION_TYPE_VIBRATION_OUTPUT then
      poll_actions_dispatch_pybind rest
    else
      (s.path, decodeActionValue s) :: poll_actions_dispatch_pybind rest

/-- Python's `path.split("/")[-1]`: the final path segment — the characters
after the last `'/'`, or the whole string when it contains no `'/'`. -/
def lastSegment (path : String) : String :=
  String.mk (path.data.foldl (fun acc c => if c = '/' then [] else acc ++ [c]) [])

/-- The action-type inference table of `subscribe_action_event` applied to
the final path segment (source lines 601-613). -/
def inferFromSegment (seg : String) : Option ℤ :=
  if seg ∈ (["click", "touch"] : List String) then some XR_ACTION_TYPE_BOOLEAN_INPUT
  else if seg ∈ (["value", "force"] : List String) then some XR_ACTION_TYPE_FLOAT_INPUT
  else if seg ∈ (["x", "y"] : List String) then some XR_ACTION_TYPE_VECTOR2F_INPUT
  else if seg ∈ (["pose"] : List String) then some XR_ACTION_TYPE_POSE_INPUT
  else if seg ∈ (["haptic", "haptic_left", "haptic_right", "haptic_left_trigger",
                  "haptic_right_trigger"] : List String) then some XR_ACTION_TYPE_VIBRATION_OUTPUT
  else none

/-- Action-type inference from a full path: the source inspects
`path.split("/")[-1]` against the fixed suffix classes. -/
def inferActionType (path : String) : Option ℤ :=
  inferFromSegment (lastSegment path)

/-- The mutable state of the `OpenXR` facade object relevant to the claims
(a slice of `OpenXR.__init__`, source lines 118-154): the stub-mode flag,
the two callback maps, whether a render callback has been set, and whether
the two viewport windows were created. -/
structure OpenXRState where
  disable_openxr : Bool
  callback_action_events : List (String × Option ℕ)
  callback_action_pose_events : List (String × Option ℕ)
  callback_render : Bool
  viewport_window_left : Bool
  viewport_window_right : Bool
deriving DecidableEq

/-- The state right after `OpenXR.__init__(disable_openxr)`: empty callback
maps, no render callback, no viewport windows. -/
def initial_state (disable : Bool) : OpenXRState :=
  ⟨disable, [], [], false, false, false⟩

/-- Python dictionary assignment `d[k] = v` as an association list: the
key's previous binding (if any) is replaced. -/
def dictSet (d : List (String × Option ℕ)) (k : String) (v : Option ℕ) :
    List (String × Option ℕ) :=
  (k, v) :: d.filter (fun p => p.1 != k)

/-- The key set of `_callback_action_events`. -/
def actionKeys (st : OpenXRState) : List String :=
  st.callback_action_events.map Prod.fst

/-- The key set of `_callback_action_pose_events`. -/
def poseKeys (st : OpenXRState) : List String :=
  st.callback_action_pose_events.map Prod.fst

/-- The map updates of `subscribe_action_event` (source lines 617-619):
the callback is recorded under the path in `_callback_action_events`, and
additionally in `_callback_action_pose_events` when the action type is
pose. -/
def subscribe_update (st : OpenXRState) (path : String) (callback : Option ℕ)
    (t : ℤ) : OpenXRState :=
  if t = XR_ACTION_TYPE_POSE_INPUT then
    { st with
      callback_action_events := dictSet st.callback_action_events path callback,
      callback_action_pose_events := dictSet st.callback_action_pose_events path callback }
  else
    { st with callback_action_events := dictSet st.callback_action_events path callback }

/-- `OpenXR.subscribe_action_event` (source lines 547-627).  Callbacks are
identified by opaque tags (`ℕ`); `runtime_result` is the boolean returned
by the native `addAction` call.  Control flow: infer the action type from
the last path segment when `action_type` is `None`, raising `ValueError`
when no suffix class matches; raise `ValueError` when the callback is
`None` for a non-vibration type; then record the callback in the maps
(`subscribe_update`); then return True in stub mode, else delegate to the
runtime and return its boolean. -/
def subscribe_action_event (st : OpenXRState) (path : String)
    (callback : Option ℕ) (action_type : Option ℤ) (runtime_result : Bool) :
    Except String (Bool × OpenXRState) :=
  match (match action_type with
         | some t => Except.ok t
         | none =>
           match inferActionType path with
           | some t => Except.ok t
           | none => Except.error ("The action type cannot be retrieved from the path " ++ path)) with
  | Except.error e => Except.error e
  | Except.ok t =>
    if callback = none ∧ t ≠ XR_ACTION_TYPE_VIBRATION_OUTPUT then
      Except.error ("The callback was not defined")
    else if st.disable_openxr then
      Except.ok (true, subscribe_update st path callback t)
    else
      Except.ok (runtime_result, subscribe_update st path callback t)

/-- The facade state after a subscription call: the new state on a normal
return, the unchanged state when the call raises (the exception fires
before the maps are written). -/
def subscribe_state (st : OpenXRState) (path : String) (callback : Option ℕ)
    (action_type : Option ℤ) (runtime_result : Bool) : OpenXRState :=
  match subscribe_action_event st path callback action_type runtime_result with
  | Except.ok (_, st') => st'
  | Except.error _ => st

/-- A sequence of subscription calls applied in order; a call that raises
leaves the state untouched (the exception fires before the maps are
written). -/
def foldSubscribe (st : OpenXRState) :
    List (String × Option ℕ × Option ℤ × Bool) → OpenXRState
  | [] => st
  | (path, cb, ty, rt) :: rest =>
    foldSubscribe (subscribe_state st path cb ty rt) rest

/-- Whether an `Except` result is a normal return (no exception raised). -/
def isOkB (e : Except String (Bool × OpenXRState)) : Bool :=
  match e with
  | Except.ok _ => true
  | Except.error _ => false

/-- `OpenXR.create_instance` (source lines 269-319): in stub mode returns
True without touching the runtime; otherwise returns the runtime's boolean
(the marshalling around the native call is out of scope). -/
def create_instance (st : OpenXRState) (runtime_result : Bool) : Bool :=
  if st.disable_openxr then true else runtime_result

/-- `OpenXR.get_system` (source lines 321-368): the three enum arguments
are validated first — an invalid value raises `ValueError` even in stub
mode — then stub mode returns True, else the runtime's boolean. -/
def get_system (st : OpenXRState) (form_factor blend_mode view_configuration_type : ℤ)
    (runtime_result : Bool) : Except String Bool :=
  if form_factor ∉ ([1, 2] : List ℤ) then
    Except.error ("Invalid form factor")
  else if blend_mode ∉ ([1, 2, 3] : List ℤ) then
    Except.error ("Invalid blend mode")
  else if view_configuration_type ∉ ([1, 2] : List ℤ) then
    Except.error ("Invalid view configuration type")
  else if st.disable_openxr then Except.ok true
  else Except.ok runtime_result

/-- `OpenXR.create_session` (source lines 370-397): stub mode returns True;
otherwise the runtime's boolean is returned unchanged — the facade itself
performs no precondition check. -/
def create_session (st : OpenXRState) (runtime_result : Bool) : Bool :=
  if st.disable_openxr then true else runtime_result

/-- `OpenXR.poll_events` (source lines 399-422): stub mode returns True;
otherwise the runtime's result combined with the exit-loop flag. -/
def poll_events (st : OpenXRState) (runtime_result exit_loop : Bool) : Bool :=
  if st.disable_openxr then true else (runtime_result && !exit_loop)

/-- `OpenXR.poll_actions` (source lines 424-480): stub mode returns True
before any dispatch; otherwise the ctypes dispatch loop runs over the
runtime-filled records and the runtime's boolean is returned.  The second
component lists the callback invocations made. -/
def poll_actions (st : OpenXRState) (runtime_result : Bool)
    (states : List ActionState) : Bool × List (String × ActionValue) :=
  if st.disable_openxr then (true, [])
  else (runtime_result, poll_actions_dispatch_ctypes states)

/-- `OpenXR.render_views` (source lines 482-543): if no render callback has
been set, `subscribe_render_event()` is called first, installing the
internal callback (in stub mode that call only sets `_callback_render`);
then stub mode shows the test windows only for configured viewports and
returns True. -/
def render_views (st : OpenXRState) (runtime_result : Bool) : Bool × OpenXRState :=
  (fun st' =>
    if st'.disable_openxr then (true, st')
    else (runtime_result, st'))
  (if st.callback_render then st else { st with callback_render := true })

/-- `OpenXR.set_meters_per_unit` (source lines 852-864):
`assert meters_per_unit != 0`, then store the value.  The `Except` result
returns the newly stored `_meters_per_unit`. -/
def set_meters_per_unit (meters_per_unit : ℚ) : Except String ℚ :=
  if meters_per_unit ≠ 0 then Except.ok meters_per_unit
  else Except.error ("AssertionError")

/-- Modelled from the spec: §4.1/§8 assert that `convert` rejects
`m = 0` for all poses (an invalid-input signal at call time); this checked
converter realises that sentence and is compared with the source pipeline,
which performs no such check. -/
def convertCheckedSpec (p : XrVector3f) (m : ℚ) : Option Vec3d :=
  if m = 0 then none else some (vdiv ⟨p.x, -p.z, p.y⟩ m)

/-- Modelled from the spec: the native runtime collaborator (the `xrlib`
library, not part of the Python source) viewed as the state machine of
§4.6 — stages 0 Uninitialized, 1 Initialized, 2 InstanceCreated,
3 SystemObtained, 4 SessionCreated.  A setup call for a target stage
succeeds exactly when its predecessor stage has been reached; calling a
later-stage operation earlier is a usage error surfaced as a boolean
failure, not an exception. -/
def runtime_setup_call (target : ℕ) (stage : ℕ) : Bool × ℕ :=
  if stage + 1 = target then (true, target) else (false, stage)

/-- `OpenXR.create_session` against the staged runtime model: the facade
(source lines 391-397) returns True in stub mode and otherwise simply
forwards the runtime's boolean — any ordering precondition is enforced by
the runtime, surfaced as a boolean, never as an exception. -/
def create_session_staged (disable : Bool) (stage : ℕ) : Bool × ℕ :=
  if disable then (true, stage) else runtime_setup_call 4 stage

/-- **C1** For every tracking pose and every non-zero meters-per-unit scale
`m`, the host-space position delivered by the pose pipeline — both in the
`render_views` pose-action dispatch and in the internal render callback —
equals `(P.x, -P.z, P.y) / m` componentwise exactly, and the delivered
orientation is the component reordering `(w, x, y, z)` of the tracking
quaternion (in the internal callback, that reordered quaternion composed
with the rectification quaternion), with no axis permutation. -/
theorem pose_pipeline_conversion (m : ℚ) (_hm : m ≠ 0) :
    (∀ s : ActionPoseState, s.type = XR_ACTION_TYPE_POSE_INPUT → s.isActive = true →
      render_views_pose_dispatch m [s] =
        [(s.path,
          ⟨s.pose.position.x / m, -s.pose.position.z / m, s.pose.position.y / m⟩,
          ⟨s.pose.orientation.w, s.pose.orientation.x, s.pose.orientation.y, s.pose.orientation.z⟩)])
    ∧ (∀ (rl rr : Quat4 ℚ) (v0 v1 : XrPosef),
        internal_render m rl rr 2 v0 v1 =
          [(⟨v0.position.x / m, -v0.position.z / m, v0.position.y / m⟩,
            qmul ⟨v0.orientation.w, v0.orientation.x, v0.orientation.y, v0.orientation.z⟩ rl),
           (⟨v1.position.x / m, -v1.position.z / m, v1.position.y / m⟩,
            qmul ⟨v1.orientation.w, v1.orientation.x, v1.orientation.y, v1.orientation.z⟩ rr)]) := by
  constructor
  · intro s hty hact
    simp [render_views_pose_dispatch, hty, hact, vdiv]
  · intro rl rr v0 v1
    simp [internal_render, vdiv]

/-- Witness for C1: the pose `P = (1, 2, 3)` with `m = 1` is delivered at
position `(1, -3, 2)` with identity orientation reordered to w-first. -/
theorem pose_pipeline_conversion_witness :
    render_views_pose_dispatch 1
      [⟨4, "/user/hand/left/input/grip/pose", true, ⟨⟨0, 0, 0, 1⟩, ⟨1, 2, 3⟩⟩⟩] =
      [("/user/hand/left/input/grip/pose", ⟨1, -3, 2⟩, ⟨1, 0, 0, 0⟩)] := by
  have h := (pose_pipeline_conversion 1 one_ne_zero).1
    ⟨4, "/user/hand/left/input/grip/pose", true, ⟨⟨0, 0, 0, 1⟩, ⟨1, 2, 3⟩⟩⟩ rfl rfl
  exact h.trans (by norm_num)

/-- A quaternion is unchanged when multiplied by the identity on the left. -/
theorem qone_qmul {α : Type} [CommRing α] (q : Quat4 α) : qmul qone q = q := by
  cases q
  simp [qmul, qone]

/-- The left rectification quaternion for angles (π/2, π/2, 0), spelled with
half-angle π/4 components. -/
theorem rect_left_xy :
    (set_stereo_rectification (Real.pi / 2) (Real.pi / 2) 0).1 =
      ⟨Real.cos (Real.pi / 4) * Real.cos (Real.pi / 4),
       Real.sin (Real.pi / 4) * Real.cos (Real.pi / 4),
       Real.cos (Real.pi / 4) * Real.sin (Real.pi / 4),
       Real.sin (Real.pi / 4) * Real.sin (Real.pi / 4)⟩ := by
  have hne : Real.pi / 2 ≠ 0 := div_ne_zero Real.pi_ne_zero two_ne_zero
  have h4 : Real.pi / 2 / 2 = Real.pi / 4 := by ring
  simp [set_stereo_rectification, rect_step, hne, h4, qmul, qone]

/-- The left quaternion of the hypothetical Y-before-X composer for angles
(π/2, π/2, 0). -/
theorem rect_left_yx :
    (set_stereo_rectification_yx (Real.pi / 2) (Real.pi / 2) 0).1 =
      ⟨Real.cos (Real.pi / 4) * Real.cos (Real.pi / 4),
       Real.cos (Real.pi / 4) * Real.sin (Real.pi / 4),
       Real.sin (Real.pi / 4) * Real.cos (Real.pi / 4),
       -(Real.sin (Real.pi / 4) * Real.sin (Real.pi / 4))⟩ := by
  have hne : Real.pi / 2 ≠ 0 := div_ne_zero Real.pi_ne_zero two_ne_zero
  have h4 : Real.pi / 2 / 2 = Real.pi / 4 := by ring
  simp [set_stereo_rectification_yx, rect_step, hne, h4, qmul, qone]

/-- **C2** `set_stereo_rectification` rebuilds both quaternions from the
identity on every call: with all-zero angles both results are the identity
quaternion; non-zero angles are applied in the fixed order X then Y then Z,
the left side with `quat(cos(a/2), sin(a/2)·axis)` and the right side with
`quat(cos(-a/2), sin(-a/2)·axis)`; in particular x = π gives left
(0, 1, 0, 0) and right (0, -1, 0, 0), and the angles (π/2, π/2) yield a
left quaternion different from the one obtained by applying Y before X. -/
theorem set_stereo_rectification_spec :
    set_stereo_rectification 0 0 0 = (qone, qone)
    ∧ set_stereo_rectification Real.pi 0 0 = (⟨0, 1, 0, 0⟩, ⟨0, -1, 0, 0⟩)
    ∧ (set_stereo_rectification (Real.pi / 2) (Real.pi / 2) 0).1
        ≠ (set_stereo_rectification_yx (Real.pi / 2) (Real.pi / 2) 0).1 := by
  refine ⟨?_, ?_, ?_⟩
  · simp [set_stereo_rectification, rect_step]
  · have hpi : (Real.pi : ℝ) ≠ 0 := Real.pi_ne_zero
    simp [set_stereo_rectification, rect_step, hpi, neg_div, qmul, qone,
      Real.cos_pi_div_two, Real.sin_pi_div_two, Real.cos_neg, Real.sin_neg,
      Prod.ext_iff]
  · intro h
    rw [rect_left_xy, rect_left_yx] at h
    have hz := congrArg Quat4.z h
    have hs : 0 < Real.sin (Real.pi / 4) := by
      rw [Real.sin_pi_div_four]
      positivity
    simp only at hz
    nlinarith [hz, hs]

/-- **C3** For every frame whose width/height ratio exceeds the recommended
ratio, the fit transform crops columns symmetrically with margin
`int(|recommended_ratio * height - width| / 2)` and then scales to exactly
(recommendedWidth, recommendedHeight); otherwise it crops rows with the
mirrored margin `int(|width / recommended_ratio - height| / 2)` and scales;
a zero margin means scale only with no crop.  The resize collaborator's
fixed contract (exact output size) enters as the hypothesis `Hres`. -/
theorem fit_transform_spec (resize : ℕ → ℕ → Image → Image) (rw rh : ℕ)
    (frame : Image) (hrw : 0 < rw) (hrh : 0 < rh)
    (Hres : ∀ w h i, 0 < h → 0 < w →
      rowsOf (resize w h i) = h ∧ colsOf (resize w h i) = w) :
    rowsOf (_transform resize none true rw rh frame).1 = rh
    ∧ colsOf (_transform resize none true rw rh frame).1 = rw
    ∧ ((colsOf frame : ℚ) / (rowsOf frame : ℚ) > (rw : ℚ) / (rh : ℚ) →
        (_transform resize none true rw rh frame).1 =
          resize rw rh
            (if fitMarginCols (colsOf frame) (rowsOf frame) rw rh ≠ 0
             then cropCols (fitMarginCols (colsOf frame) (rowsOf frame) rw rh) frame
             else frame))
    ∧ (¬ ((colsOf frame : ℚ) / (rowsOf frame : ℚ) > (rw : ℚ) / (rh : ℚ)) →
        (_transform resize none true rw rh frame).1 =
          resize rw rh
            (if fitMarginRows (colsOf frame) (rowsOf frame) rw rh ≠ 0
             then cropRows (fitMarginRows (colsOf frame) (rowsOf frame) rw rh) frame
             else frame)) := by
  by_cases hc : (colsOf frame : ℚ) / (rowsOf frame : ℚ) > (rw : ℚ) / (rh : ℚ)
  · refine ⟨?_, ?_, fun _ => ?_, fun hn => absurd hc hn⟩ <;>
      simp only [_transform, if_pos hc, if_true]
    · exact (Hres rw rh _ hrh hrw).1
    · exact (Hres rw rh _ hrh hrw).2
  · refine ⟨?_, ?_, fun hg => absurd hg hc, fun _ => ?_⟩ <;>
      simp only [_transform, if_neg hc, if_true]
    · exact (Hres rw rh _ hrh hrw).1
    · exact (Hres rw rh _ hrh hrw).2

/-- Witness for C3: a 640x480 frame fitted to a 1280x720 recommendation
takes the row-cropping branch (its ratio 4/3 does not exceed 16/9), the
row margin is 60, and the output is exactly 1280x720. -/
theorem fit_transform_spec_witness :
    fitMarginRows 640 480 1280 720 = 60
    ∧ ¬ ((640 : ℚ) / (480 : ℚ) > (1280 : ℚ) / (720 : ℚ))
    ∧ rowsOf (_transform (fun w h _ => List.replicate h (List.replicate w 0))
        none true 1280 720 (List.replicate 480 (List.replicate 640 (0 : ℤ)))).1 = 720
    ∧ colsOf (_transform (fun w h _ => List.replicate h (List.replicate w 0))
        none true 1280 720 (List.replicate 480 (List.replicate 640 (0 : ℤ)))).1 = 1280 := by
  have Hres : ∀ w h i, 0 < h → 0 < w →
      rowsOf ((fun w h (_ : Image) => List.replicate h (List.replicate w (0 : ℤ))) w h i) = h
      ∧ colsOf ((fun w h (_ : Image) => List.replicate h (List.replicate w (0 : ℤ))) w h i) = w := by
    intro w h i hh _
    cases h with
    | zero => omega
    | succ n => constructor <;> simp [rowsOf, colsOf, List.replicate_succ]
  have h := fit_transform_spec (fun w h _ => List.replicate h (List.replicate w 0))
    1280 720 (List.replicate 480 (List.replicate 640 (0 : ℤ)))
    (by norm_num) (by norm_num) Hres
  have hm : fitMarginRows 640 480 1280 720 = 60 := by
    norm_num [fitMarginRows]
    rfl
  refine ⟨hm, by norm_num, ?_, ?_⟩
  · exact h.1
  · exact h.2.1

/-- **C4** If neither flip nor fit is configured, `_transform` returns the
original buffer itself with the copy flag `false` (no copy is made); if
flip or fit (or both) is configured, the copy flag is `true` — the source
then returns `np.array(frame, copy=True)`, a distinct, freshly copied
buffer — and with flip alone the content is exactly the flipped image. -/
theorem transform_copy_semantics (resize : ℕ → ℕ → Image → Image)
    (rw rh : ℕ) (frame : Image) (f : FlipAxes) :
    _transform resize none false rw rh frame = (frame, false)
    ∧ _transform resize (some f) false rw rh frame = (flipImage f frame, true)
    ∧ (_transform resize none true rw rh frame).2 = true
    ∧ (_transform resize (some f) true rw rh frame).2 = true := by
  exact ⟨rfl, rfl, rfl, rfl⟩

/-- **C6** In every poll cycle, on both transports, each action record of
boolean, float, or vector2 type produces exactly one callback invocation
with `(path, value)` — the boolean passed through, the float passed
through, or the ordered pair (x, y) — pose-typed and vibration-typed
records never produce an invocation through this path, and on the
fixed-size (ctypes) transport a record with an unset (zero) type terminates
the scan before any later record is dispatched: the ctypes dispatch equals
the pybind dispatch of the prefix before the first zero-type record, and
the pybind dispatch is exactly the per-record map over the non-pose,
non-vibration records. -/
theorem poll_actions_dispatch_spec :
    (∀ states : List ActionState,
      poll_actions_dispatch_ctypes states =
        poll_actions_dispatch_pybind (states.takeWhile (fun s => s.type != 0)))
    ∧ (∀ states : List ActionState,
      poll_actions_dispatch_pybind states =
        (states.filter (fun s =>
            !(s.type == XR_ACTION_TYPE_POSE_INPUT || s.type == XR_ACTION_TYPE_VIBRATION_OUTPUT))).map
          (fun s => (s.path, decodeActionValue s)))
    ∧ (∀ (p : String) (act b : Bool) (f vx vy : ℚ),
        decodeActionValue ⟨1, p, act, b, f, vx, vy⟩ = ActionValue.bool b
        ∧ decodeActionValue ⟨2, p, act, b, f, vx, vy⟩ = ActionValue.float f
        ∧ decodeActionValue ⟨3, p, act, b, f, vx, vy⟩ = ActionValue.vec2 vx vy) := by
  refine ⟨?_, ?_, ?_⟩
  · intro states
    induction states with
    | nil => rfl
    | cons s rest ih =>
      by_cases h0 : s.type = 0
      · simp [poll_actions_dispatch_ctypes, poll_actions_dispatch_pybind,
          List.takeWhile_cons, h0]
      · by_cases hpv : s.type = XR_ACTION_TYPE_POSE_INPUT ∨ s.type = XR_ACTION_TYPE_VIBRATION_OUTPUT
        · simp [poll_actions_dispatch_ctypes, poll_actions_dispatch_pybind,
            List.takeWhile_cons, h0, hpv, ih]
        · simp [poll_actions_dispatch_ctypes, poll_actions_dispatch_pybind,
            List.takeWhile_cons, h0, hpv, ih]
  · intro states
    induction states with
    | nil => rfl
    | cons s rest ih =>
      by_cases hpv : s.type = XR_ACTION_TYPE_POSE_INPUT ∨ s.type = XR_ACTION_TYPE_VIBRATION_OUTPUT
      · rcases hpv with h | h <;>
          simp [poll_actions_dispatch_pybind, List.filter_cons, h, ih]
      · have h4 : ¬ s.type = XR_ACTION_TYPE_POSE_INPUT := fun h => hpv (Or.inl h)
        have h100 : ¬ s.type = XR_ACTION_TYPE_VIBRATION_OUTPUT := fun h => hpv (Or.inr h)
        simp [poll_actions_dispatch_pybind, List.filter_cons, hpv, h4, h100, ih]
  · intro p act b f vx vy
    refine ⟨rfl, ?_, ?_⟩ <;> simp [decodeActionValue]

/-- **C9** With the interface acquired in stub mode (runtime disabled),
`create_instance`, `get_system` (with valid arguments), `create_session`,
`poll_events`, `poll_actions`, and `render_views` all return True with zero
registered actions and zero dispatched callbacks, without consulting the
native runtime: every runtime result below is passed as `false`, and the
calls still return True. -/
theorem stub_mode_cycle :
    create_instance (initial_state true) false = true
    ∧ get_system (initial_state true) 1 1 2 false = Except.ok true
    ∧ create_session (initial_state true) false = true
    ∧ poll_events (initial_state true) false false = true
    ∧ poll_actions (initial_state true) false [] = (true, [])
    ∧ (render_views (initial_state true) false).1 = true
    ∧ actionKeys (initial_state true) = []
    ∧ actionKeys ((render_views (initial_state true) false).2) = [] := by
  refine ⟨rfl, rfl, rfl, rfl, rfl, rfl, rfl, rfl⟩

/-- **C7** Calling `create_session` before `get_system` has succeeded is
rejected as a boolean failure, not an exception: against the staged
runtime model (stage < 3 means the system has not been obtained), the
facade's `create_session` returns `false` and leaves the stage unchanged;
and in general every later-stage setup operation invoked before its
predecessor has succeeded returns `false`.  (The facade operations are
total `Bool`-valued functions — no exception path exists.) -/
theorem setup_order_enforced :
    (∀ stage : ℕ, stage < 3 → create_session_staged false stage = (false, stage))
    ∧ (∀ target stage : ℕ, stage + 1 < target → (runtime_setup_call target stage).1 = false) := by
  constructor
  · intro stage h
    have hne : stage + 1 ≠ 4 := by omega
    simp [create_session_staged, runtime_setup_call, hne]
  · intro target stage h
    have hne : stage + 1 ≠ target := by omega
    simp [runtime_setup_call, hne]

/-- Witness for C7: from the freshly initialized stage (0, before
`get_system`), `create_session` fails with a boolean `false`. -/
theorem setup_order_enforced_witness :
    create_session_staged false 0 = (false, 0)
    ∧ (runtime_setup_call 4 2).1 = false := by
  exact ⟨setup_order_enforced.1 0 (by norm_num),
         setup_order_enforced.2 4 2 (by norm_num)⟩

/-- **C8 (amended)** Configuring the unit scale with zero fails fast at the
configuration call (`set_meters_per_unit` asserts `meters_per_unit != 0`
at call time), and every non-zero value is stored exactly; the conversion
itself, however, performs no check on `m`: even at `m = 0` the pose
dispatch still delivers a value to the callback — rejection of `m = 0`
happens only in the setter. -/
theorem set_meters_per_unit_spec :
    (∀ m : ℚ, m ≠ 0 → set_meters_per_unit m = Except.ok m)
    ∧ set_meters_per_unit 0 = Except.error ("AssertionError")
    ∧ (∀ s : ActionPoseState, s.type = XR_ACTION_TYPE_POSE_INPUT → s.isActive = true →
        (render_views_pose_dispatch 0 [s]).length = 1) := by
  refine ⟨?_, ?_, ?_⟩
  · intro m hm
    simp [set_meters_per_unit, hm]
  · simp [set_meters_per_unit]
  · intro s h1 h2
    simp [render_views_pose_dispatch, h1, h2]

/-- Witness for C8: the scale 0.01 (one centimeter per unit) is accepted
and stored, and a concrete active pose record is still dispatched when the
stored scale is zero. -/
theorem set_meters_per_unit_spec_witness :
    set_meters_per_unit (1 / 100) = Except.ok (1 / 100)
    ∧ (render_views_pose_dispatch 0
        [⟨4, "/user/hand/right/input/grip/pose", true, ⟨⟨0, 0, 0, 1⟩, ⟨1, 2, 3⟩⟩⟩]).length = 1 := by
  exact ⟨set_meters_per_unit_spec.1 (1 / 100) (by norm_num),
         set_meters_per_unit_spec.2.2 _ rfl rfl⟩

/-- Counterexample for C8 as stated: the claim says the conversion rejects
`m = 0` for all poses, but at `m = 0` the pose pipeline delivers a value
(one callback invocation occurs) while the spec-modelled checked converter
rejects the same input — the source conversion performs no check. -/
theorem convert_zero_scale_not_rejected :
    (render_views_pose_dispatch 0
        [⟨4, "/user/head/input/pose", true, ⟨⟨0, 0, 0, 1⟩, ⟨1, 2, 3⟩⟩⟩]).length = 1
    ∧ convertCheckedSpec ⟨1, 2, 3⟩ 0 = none := by
  constructor
  · simp [render_views_pose_dispatch]
  · rfl

/-- **C5 (amended)** For every path with no explicit action type,
`subscribe_action_event` infers the type from the final path segment by the
fixed suffix classes ({click,touch} boolean, {value,force} float, {x,y}
vector2, {pose} pose, {haptic,haptic_left,haptic_right,haptic_left_trigger,
haptic_right_trigger} vibration) and raises a configuration error for any
other segment; omitting the callback for any non-vibration kind (inferred
or explicit) is a configuration error; supplying a callback for a
vibration-output action, however, is accepted without error — the source
performs no such check (the callback is stored but never invoked). -/
theorem subscribe_action_inference_spec :
    (∀ seg : String,
      (seg ∈ (["click", "touch"] : List String) →
        inferFromSegment seg = some XR_ACTION_TYPE_BOOLEAN_INPUT)
      ∧ (seg ∈ (["value", "force"] : List String) →
        inferFromSegment seg = some XR_ACTION_TYPE_FLOAT_INPUT)
      ∧ (seg ∈ (["x", "y"] : List String) →
        inferFromSegment seg = some XR_ACTION_TYPE_VECTOR2F_INPUT)
      ∧ (seg = "pose" → inferFromSegment seg = some XR_ACTION_TYPE_POSE_INPUT)
      ∧ (seg ∈ (["haptic", "haptic_left", "haptic_right", "haptic_left_trigger",
                 "haptic_right_trigger"] : List String) →
        inferFromSegment seg = some XR_ACTION_TYPE_VIBRATION_OUTPUT)
      ∧ (seg ∉ (["click", "touch", "value", "force", "x", "y", "pose", "haptic",
                 "haptic_left", "haptic_right", "haptic_left_trigger",
                 "haptic_right_trigger"] : List String) →
        inferFromSegment seg = none))
    ∧ (∀ (st : OpenXRState) (path : String) (cb : Option ℕ) (rt : Bool),
        inferActionType path = none →
        subscribe_action_event st path cb none rt =
          Except.error ("The action type cannot be retrieved from the path " ++ path))
    ∧ (∀ (st : OpenXRState) (path : String) (rt : Bool) (t : ℤ),
        inferActionType path = some t → t ≠ XR_ACTION_TYPE_VIBRATION_OUTPUT →
        subscribe_action_event st path none none rt =
          Except.error ("The callback was not defined"))
    ∧ (∀ (st : OpenXRState) (path : String) (rt : Bool) (t : ℤ),
        t ≠ XR_ACTION_TYPE_VIBRATION_OUTPUT →
        subscribe_action_event st path none (some t) rt =
          Except.error ("The callback was not defined"))
    ∧ (∀ (st : OpenXRState) (path : String) (rt : Bool) (c : ℕ),
        inferActionType path = some XR_ACTION_TYPE_VIBRATION_OUTPUT →
        isOkB (subscribe_action_event st path (some c) none rt) = true) := by
  refine ⟨?_, ?_, ?_, ?_, ?_⟩
  · intro seg
    refine ⟨?_, ?_, ?_, ?_, ?_, ?_⟩
    · intro h
      simp only [List.mem_cons, List.mem_singleton, List.not_mem_nil, or_false] at h
      rcases h with rfl | rfl <;> rfl
    · intro h
      simp only [List.mem_cons, List.mem_singleton, List.not_mem_nil, or_false] at h
      rcases h with rfl | rfl <;> rfl
    · intro h
      simp only [List.mem_cons, List.mem_singleton, List.not_mem_nil, or_false] at h
      rcases h with rfl | rfl <;> rfl
    · intro h
      subst h
      rfl
    · intro h
      simp only [List.mem_cons, List.mem_singleton, List.not_mem_nil, or_false] at h
      rcases h with rfl | rfl | rfl | rfl | rfl <;> rfl
    · intro h
      simp only [List.mem_cons, List.mem_singleton, List.not_mem_nil, or_false,
        not_or] at h
      obtain ⟨h1, h2, h3, h4, h5, h6, h7, h8, h9, h10, h11, h12⟩ := h
      simp [inferFromSegment, h1, h2, h3, h4, h5, h6, h7, h8, h9, h10, h11, h12]
  · intro st path cb rt h
    simp [subscribe_action_event, h]
  · intro st path rt t h ht
    simp [subscribe_action_event, h, ht]
  · intro st path rt t ht
    simp [subscribe_action_event, ht]
  · intro st path rt c h
    simp only [subscribe_action_event, h]
    by_cases hd : st.disable_openxr <;> simp [hd, isOkB]

/-- Witness for C5: the path ending in `/value` infers the float type, and
omitting the callback for it raises the configuration error. -/
theorem subscribe_action_inference_spec_witness :
    inferFromSegment "value" = some XR_ACTION_TYPE_FLOAT_INPUT
    ∧ subscribe_action_event (initial_state true)
        "/user/hand/left/input/trigger/value" none none true =
        Except.error ("The callback was not defined") := by
  refine ⟨(subscribe_action_inference_spec.1 "value").2.1 (by decide), ?_⟩
  exact subscribe_action_inference_spec.2.2.1 (initial_state true)
    "/user/hand/left/input/trigger/value" true XR_ACTION_TYPE_FLOAT_INPUT
    (by decide) (by decide)

/-- Counterexample for C5 as stated: the claim says supplying a callback
for a vibration-output action is a configuration error, but the source
only checks the converse (missing callback for a non-vibration type):
subscribing `/user/hand/left/output/haptic` with a callback returns
normally instead of raising. -/
theorem subscribe_vibration_callback_accepted :
    isOkB (subscribe_action_event (initial_state true)
      "/user/hand/left/output/haptic" (some 0) none true) = true := by
  rfl

/-- Key membership after a dictionary assignment: the written key, plus all
previous keys. -/
theorem mem_dictSet_keys (d : List (String × Option ℕ)) (k q : String) (v : Option ℕ) :
    q ∈ (dictSet d k v).map Prod.fst ↔ q = k ∨ q ∈ d.map Prod.fst := by
  simp only [dictSet, List.map_cons, List.mem_cons]
  constructor
  · rintro (h | h)
    · exact Or.inl h
    · obtain ⟨p, hp, rfl⟩ := List.mem_map.mp h
      exact Or.inr (List.mem_map.mpr ⟨p, (List.mem_filter.mp hp).1, rfl⟩)
  · rintro (rfl | h)
    · exact Or.inl rfl
    · by_cases hq : q = k
      · exact Or.inl hq
      · obtain ⟨p, hp, rfl⟩ := List.mem_map.mp h
        refine Or.inr (List.mem_map.mpr ⟨p, List.mem_filter.mpr ⟨hp, ?_⟩, rfl⟩)
        simpa using hq

/-- Action-map keys after the subscription update: the subscribed path plus
the previous keys, for every action type. -/
theorem actionKeys_update (st : OpenXRState) (path : String) (cb : Option ℕ)
    (t : ℤ) (q : String) :
    q ∈ actionKeys (subscribe_update st path cb t) ↔ q = path ∨ q ∈ actionKeys st := by
  unfold actionKeys subscribe_update
  by_cases h4 : t = XR_ACTION_TYPE_POSE_INPUT
  · rw [if_pos h4]
    exact mem_dictSet_keys st.callback_action_events path q cb
  · rw [if_neg h4]
    exact mem_dictSet_keys st.callback_action_events path q cb

/-- Pose-map keys after the subscription update: extended by the path
exactly for pose-typed subscriptions, unchanged otherwise. -/
theorem poseKeys_update (st : OpenXRState) (path : String) (cb : Option ℕ)
    (t : ℤ) (q : String) :
    q ∈ poseKeys (subscribe_update st path cb t) ↔
      (t = XR_ACTION_TYPE_POSE_INPUT ∧ (q = path ∨ q ∈ poseKeys st))
      ∨ (t ≠ XR_ACTION_TYPE_POSE_INPUT ∧ q ∈ poseKeys st) := by
  unfold poseKeys subscribe_update
  by_cases h4 : t = XR_ACTION_TYPE_POSE_INPUT
  · rw [if_pos h4]
    constructor
    · intro hq
      exact Or.inl ⟨h4, (mem_dictSet_keys st.callback_action_pose_events path q cb).mp hq⟩
    · rintro (⟨_, hq⟩ | ⟨hne, _⟩)
      · exact (mem_dictSet_keys st.callback_action_pose_events path q cb).mpr hq
      · exact absurd h4 hne
  · rw [if_neg h4]
    constructor
    · intro hq
      exact Or.inr ⟨h4, hq⟩
    · rintro (⟨h4', _⟩ | ⟨_, hq⟩)
      · exact absurd h4' h4
      · exact hq

/-- A normal return of `subscribe_action_event` determines an effective
action type (explicit or inferred) and a result state equal to the map
update for that type — in particular the result state does not depend on
the runtime's `addAction` boolean. -/
theorem subscribe_ok_elim (st : OpenXRState) (path : String) (cb : Option ℕ)
    (ty : Option ℤ) (rt ok : Bool) (st' : OpenXRState)
    (h : subscribe_action_event st path cb ty rt = Except.ok (ok, st')) :
    ∃ t : ℤ, (ty = some t ∨ (ty = none ∧ inferActionType path = some t))
      ∧ st' = subscribe_update st path cb t := by
  cases ty with
  | some t =>
    refine ⟨t, Or.inl rfl, ?_⟩
    simp only [subscribe_action_event] at h
    split at h
    · simp at h
    · split at h <;>
        (simp only [Except.ok.injEq, Prod.mk.injEq] at h; exact h.2.symm)
  | none =>
    cases hinf : inferActionType path with
    | none =>
      simp only [subscribe_action_event, hinf] at h
      exact Except.noConfusion h
    | some t =>
      refine ⟨t, Or.inr ⟨rfl, rfl⟩, ?_⟩
      simp only [subscribe_action_event, hinf] at h
      split at h
      · simp at h
      · split at h <;>
          (simp only [Except.ok.injEq, Prod.mk.injEq] at h; exact h.2.symm)

/-- The subscription map update preserves the registry invariant: pose-map
keys remain a subset of action-map keys. -/
theorem update_preserves_inv (st : OpenXRState) (path : String)
    (cb : Option ℕ) (t : ℤ)
    (hinv : ∀ q, q ∈ poseKeys st → q ∈ actionKeys st) :
    ∀ q, q ∈ poseKeys (subscribe_update st path cb t) →
      q ∈ actionKeys (subscribe_update st path cb t) := by
  intro q hq
  rw [poseKeys_update] at hq
  rw [actionKeys_update]
  rcases hq with ⟨_, hq⟩ | ⟨_, hq⟩
  · rcases hq with rfl | hq
    · exact Or.inl rfl
    · exact Or.inr (hinv q hq)
  · exact Or.inr (hinv q hq)

/-- One subscription call (normal or raising) preserves the registry
invariant. -/
theorem subscribe_state_preserves_inv (st : OpenXRState) (path : String)
    (cb : Option ℕ) (ty : Option ℤ) (rt : Bool)
    (hinv : ∀ q, q ∈ poseKeys st → q ∈ actionKeys st) :
    ∀ q, q ∈ poseKeys (subscribe_state st path cb ty rt) →
      q ∈ actionKeys (subscribe_state st path cb ty rt) := by
  unfold subscribe_state
  cases hsub : subscribe_action_event st path cb ty rt with
  | error e => exact hinv
  | ok pr =>
    obtain ⟨ok, st'⟩ := pr
    obtain ⟨t, _, rfl⟩ := subscribe_ok_elim st path cb ty rt ok st' hsub
    exact update_preserves_inv st path cb t hinv

/-- Every sequence of subscription calls preserves the registry
invariant. -/
theorem foldSubscribe_preserves_inv
    (subs : List (String × Option ℕ × Option ℤ × Bool)) :
    ∀ st : OpenXRState, (∀ q, q ∈ poseKeys st → q ∈ actionKeys st) →
      ∀ q, q ∈ poseKeys (foldSubscribe st subs) → q ∈ actionKeys (foldSubscribe st subs) := by
  induction subs with
  | nil => intro st hinv; exact hinv
  | cons s rest ih =>
    intro st hinv
    obtain ⟨path, cb, ty, rt⟩ := s
    exact ih (subscribe_state st path cb ty rt)
      (subscribe_state_preserves_inv st path cb ty rt hinv)

/-- **C10** `subscribe_action_event` records the callback in the
action-event map — and, for pose-typed actions, additionally in the
pose-event map — before delegating to the runtime: after a normal return
the path is an action-map key, the pose-map keys remain a subset of the
action-map keys (and stay so after any further sequence of subscriptions),
a pose path is present in both maps, and the resulting state is
independent of the runtime `addAction` boolean — a registration persists
even when that call fails, with no rollback. -/
theorem subscribe_registry_invariant (st : OpenXRState) (path : String)
    (cb : Option ℕ) (ty : Option ℤ) (rt ok : Bool) (st' : OpenXRState)
    (hinv : ∀ q, q ∈ poseKeys st → q ∈ actionKeys st)
    (h : subscribe_action_event st path cb ty rt = Except.ok (ok, st')) :
    path ∈ actionKeys st'
    ∧ (∀ q, q ∈ poseKeys st' → q ∈ actionKeys st')
    ∧ ((ty = some XR_ACTION_TYPE_POSE_INPUT
        ∨ (ty = none ∧ inferActionType path = some XR_ACTION_TYPE_POSE_INPUT)) →
        path ∈ poseKeys st' ∧ path ∈ actionKeys st')
    ∧ (∀ (rt2 ok2 : Bool) (st2 : OpenXRState),
        subscribe_action_event st path cb ty rt2 = Except.ok (ok2, st2) → st2 = st')
    ∧ (∀ subs, ∀ q, q ∈ poseKeys (foldSubscribe st' subs) →
        q ∈ actionKeys (foldSubscribe st' subs)) := by
  obtain ⟨t, hty, rfl⟩ := subscribe_ok_elim st path cb ty rt ok st' h
  have hinv' := update_preserves_inv st path cb t hinv
  refine ⟨?_, hinv', ?_, ?_, ?_⟩
  · rw [actionKeys_update]
    exact Or.inl rfl
  · intro hp
    have ht4 : t = XR_ACTION_TYPE_POSE_INPUT := by
      rcases hty with hty | ⟨htyn, hinf⟩ <;> rcases hp with hp | ⟨hpn, hpi⟩ <;> simp_all
    constructor
    · rw [poseKeys_update]
      exact Or.inl ⟨ht4, Or.inl rfl⟩
    · rw [actionKeys_update]
      exact Or.inl rfl
  · intro rt2 ok2 st2 h2
    obtain ⟨t2, hty2, rfl⟩ := subscribe_ok_elim st path cb ty rt2 ok2 st2 h2
    have h12 : t2 = t := by
      rcases hty with hty | ⟨htyn, hinf⟩ <;> rcases hty2 with hty2 | ⟨htyn2, hinf2⟩ <;> simp_all
    rw [h12]
  · intro subs
    exact foldSubscribe_preserves_inv subs _ hinv'

/-- Witness for C10: subscribing a pose path on the fresh stub-mode state
leaves the path registered in both maps. -/
theorem subscribe_registry_invariant_witness :
    "/user/hand/left/input/grip/pose" ∈ actionKeys
      ⟨true, [("/user/hand/left/input/grip/pose", some 0)],
       [("/user/hand/left/input/grip/pose", some 0)], false, false, false⟩
    ∧ "/user/hand/left/input/grip/pose" ∈ poseKeys
      ⟨true, [("/user/hand/left/input/grip/pose", some 0)],
       [("/user/hand/left/input/grip/pose", some 0)], false, false, false⟩ := by
  have hinv : ∀ q, q ∈ poseKeys (initial_state true) →
      q ∈ actionKeys (initial_state true) := by
    intro q hq
    simp [poseKeys, initial_state] at hq
  have h := subscribe_registry_invariant (initial_state true)
    "/user/hand/left/input/grip/pose" (some 0) none true true
    ⟨true, [("/user/hand/left/input/grip/pose", some 0)],
     [("/user/hand/left/input/grip/pose", some 0)], false, false, false⟩
    hinv (by rfl)
  exact ⟨h.1, (h.2.2.1 (Or.inr ⟨rfl, by rfl⟩)).1⟩
